import Mathlib

/-!
Verification of the fingerprint-based referral-fraud engine of the user
account service (`src/models/User.js`): the similarity evaluator
`isSameDevice`, the lookup `findMatchingFingerprint`, and the referral
points transaction `awardReferralPoints`, together with the record store
operations they use.

Conventions of the embedding:
  * JavaScript truthiness of an optional string field (`undefined`, `null`
    and `""` are falsy) is `strTruthy`; truthiness of an optional
    non-negative integer field (`undefined`, `null` and `0` are falsy) is
    `natTruthy`.
  * The floating-point score `matchCount / totalChecks` and the threshold
    are modelled as exact rationals; all comparisons in the source involve
    fractions with denominator at most 8 against the literal `0.7`, where
    exact and double-precision comparison agree.
  * The document store is a list of user records in iteration order;
    `findOne` is `List.find?`, the Mongo query
    `{ fingerprint.visitorId : { $exists : true } }` is a filter, and a
    `save` of an incremented points counter is a pointwise update of every
    record carrying the referrer's id.
-/

namespace UserModel

/-- A device fingerprint record, after the `fingerprint` subdocument of the
Mongoose user schema.  Every field that the similarity evaluator may find
absent is an `Option`. -/
structure Fingerprint where
  visitorId : Option String
  confidence : Option ℚ
  components : List String
  cookieEnabled : Bool
  doNotTrack : Option String
  hardwareConcurrency : Option Nat
  language : Option String
  maxTouchPoints : Option Nat
  platform : Option String
  screenResolution : Option String
  timestamp : Nat
  timezone : Option String
  userAgent : Option String
  vendor : Option String
deriving DecidableEq

/-- JavaScript truthiness of an optional string field: `undefined`/`null`
and the empty string are falsy. -/
def strTruthy : Option String → Bool
  | none => false
  | some s => s ≠ ""

/-- JavaScript truthiness of an optional numeric field: `undefined`/`null`
and `0` are falsy. -/
def natTruthy : Option Nat → Bool
  | none => false
  | some n => n ≠ 0

/-- One string field's contribution to `(totalChecks, matchCount)`:
`if (fp1[f] && fp2[f]) { totalChecks++; if (fp1[f] === fp2[f]) matchCount++; }`. -/
def cmpStr (x y : Option String) : Nat × Nat :=
  if strTruthy x && strTruthy y then (1, if x = y then 1 else 0) else (0, 0)

/-- One numeric field's contribution to `(totalChecks, matchCount)`. -/
def cmpNat (x y : Option Nat) : Nat × Nat :=
  if natTruthy x && natTruthy y then (1, if x = y then 1 else 0) else (0, 0)

/-- The `totalChecks` counter of `isSameDevice`: the six critical fields in
source order, then timezone and language. -/
def totalChecksOf (f1 f2 : Fingerprint) : Nat :=
  (cmpStr f1.platform f2.platform).1 + (cmpStr f1.vendor f2.vendor).1 +
  (cmpStr f1.userAgent f2.userAgent).1 +
  (cmpStr f1.screenResolution f2.screenResolution).1 +
  (cmpNat f1.hardwareConcurrency f2.hardwareConcurrency).1 +
  (cmpNat f1.maxTouchPoints f2.maxTouchPoints).1 +
  (cmpStr f1.timezone f2.timezone).1 + (cmpStr f1.language f2.language).1

/-- The `matchCount` counter of `isSameDevice`. -/
def matchCountOf (f1 f2 : Fingerprint) : Nat :=
  (cmpStr f1.platform f2.platform).2 + (cmpStr f1.vendor f2.vendor).2 +
  (cmpStr f1.userAgent f2.userAgent).2 +
  (cmpStr f1.screenResolution f2.screenResolution).2 +
  (cmpNat f1.hardwareConcurrency f2.hardwareConcurrency).2 +
  (cmpNat f1.maxTouchPoints f2.maxTouchPoints).2 +
  (cmpStr f1.timezone f2.timezone).2 + (cmpStr f1.language f2.language).2

/-- `const similarityScore = totalChecks > 0 ? matchCount / totalChecks : 0;` -/
def similarityScore (f1 f2 : Fingerprint) : ℚ :=
  if 0 < totalChecksOf f1 f2 then
    (matchCountOf f1 f2 : ℚ) / (totalChecksOf f1 f2 : ℚ)
  else 0

/-- `User.isSameDevice(fingerprint1, fingerprint2, threshold)`: fails closed
on an absent argument, otherwise compares the similarity score with the
threshold (`similarityScore >= threshold`). -/
def isSameDevice (f1 f2 : Option Fingerprint) (threshold : ℚ) : Bool :=
  match f1, f2 with
  | some a, some b => decide (threshold ≤ similarityScore a b)
  | _, _ => false

/-- The all-absent fingerprint record (every optional field missing). -/
def emptyFp : Fingerprint :=
  { visitorId := none, confidence := none, components := [],
    cookieEnabled := false, doNotTrack := none, hardwareConcurrency := none,
    language := none, maxTouchPoints := none, platform := none,
    screenResolution := none, timestamp := 0, timezone := none,
    userAgent := none, vendor := none }

/-- A user account record, restricted to the fields the referral engine
reads: identity, referral code, points counter and the embedded
fingerprint. -/
structure User where
  id : Nat
  myReferralCode : Option String
  points : Nat
  fingerprint : Option Fingerprint
deriving DecidableEq

/-- `User.findByReferralCode(code)`: `findOne({ myReferralCode: code })`,
the first record in store order whose code matches. -/
def findByReferralCode (store : List User) (code : String) : Option User :=
  store.find? (fun u => u.myReferralCode == some code)

/-- `User.findById(id)`: the first record in store order with that id. -/
def findById (store : List User) (uid : Nat) : Option User :=
  store.find? (fun u => u.id == uid)

/-- The Mongo filter `{ 'fingerprint.visitorId': { $exists: true } }`: the
record has a fingerprint whose `visitorId` field is present (possibly the
empty string). -/
def hasVisitorId (u : User) : Bool :=
  match u.fingerprint with
  | some fp => fp.visitorId.isSome
  | none => false

/-- `User.findMatchingFingerprint(fingerprintData, threshold)`: fetch all
records whose `fingerprint.visitorId` exists, then return the first of
them (in store order) with a truthy fingerprint that `isSameDevice`
accepts against the candidate; `null` when none does. -/
def findMatchingFingerprint (store : List User) (fpData : Fingerprint)
    (threshold : ℚ) : Option User :=
  (store.filter hasVisitorId).find?
    (fun u => u.fingerprint.isSome && isSameDevice u.fingerprint (some fpData) threshold)

/-- `user.addPoints(n)` followed by `save()`: the store with the points
counter of the records carrying this id incremented. -/
def addPoints (store : List User) (uid : Nat) (pts : Nat) : List User :=
  store.map (fun u => if u.id = uid then { u with points := u.points + pts } else u)

instance {ε α : Type} [DecidableEq ε] [DecidableEq α] : DecidableEq (Except ε α)
  | .ok a, .ok b =>
    if h : a = b then isTrue (by rw [h]) else isFalse (by simp [h])
  | .error a, .error b =>
    if h : a = b then isTrue (by rw [h]) else isFalse (by simp [h])
  | .ok _, .error _ => isFalse (by simp)
  | .error _, .ok _ => isFalse (by simp)

/-- The four `throw new Error(...)` sites of `awardReferralPoints`. -/
inductive AwardError where
  | invalidReferralCode
  | newUserNotFound
  | selfReferralFraud
  | multiAccountFraud
deriving DecidableEq

/-- The object returned by `awardReferralPoints` on success. -/
structure AwardResult where
  referrer : User
  newUser : User
  referrerPointsAwarded : Nat
  newUserPointsAwarded : Nat
  fraudCheckPassed : Bool
deriving DecidableEq

/-- The success tail of `awardReferralPoints`: credit the referrer with 100
points and return the result object (the returned referrer instance
carries the incremented counter; the new user is returned as loaded). -/
def awardSuccess (store : List User) (referrer newUser : User) :
    Except AwardError AwardResult × List User :=
  (Except.ok
    { referrer := { referrer with points := referrer.points + 100 },
      newUser := newUser,
      referrerPointsAwarded := 100,
      newUserPointsAwarded := 0,
      fraudCheckPassed := true },
   addPoints store referrer.id 100)

/-- `User.awardReferralPoints(referralCode, newUserId, newUserFingerprint)`:
resolve the referrer by code and the new user by id, run the self-referral
and multi-account fraud checks when a fingerprint was supplied, then credit
the referrer.  The returned store is the state of the record store when the
call finishes (unchanged on every thrown error). -/
def awardReferralPoints (store : List User) (referralCode : String)
    (newUserId : Nat) (newUserFingerprint : Option Fingerprint) :
    Except AwardError AwardResult × List User :=
  match findByReferralCode store referralCode with
  | none => (Except.error AwardError.invalidReferralCode, store)
  | some referrer =>
    match findById store newUserId with
    | none => (Except.error AwardError.newUserNotFound, store)
    | some newUser =>
      match newUserFingerprint with
      | some fp =>
        if referrer.fingerprint.isSome
            && isSameDevice referrer.fingerprint (some fp) (7/10) then
          (Except.error AwardError.selfReferralFraud, store)
        else
          match findMatchingFingerprint store fp (7/10) with
          | some existing =>
            if existing.id ≠ newUserId then
              (Except.error AwardError.multiAccountFraud, store)
            else
              awardSuccess store referrer newUser
          | none => awardSuccess store referrer newUser
      | none => awardSuccess store referrer newUser

/-- The points counter currently stored for an identity (0 when the id
resolves to no record). -/
def pointsOf (store : List User) (uid : Nat) : Nat :=
  match findById store uid with
  | some u => u.points
  | none => 0

/-- The eight critical fields that `isSameDevice` compares. -/
inductive CriticalField where
  | platform | vendor | userAgent | screenResolution
  | hardwareConcurrency | maxTouchPoints | timezone | language
deriving DecidableEq

/-- All eight critical fields, in the order the source visits them. -/
def CriticalField.all : List CriticalField :=
  [.platform, .vendor, .userAgent, .screenResolution,
   .hardwareConcurrency, .maxTouchPoints, .timezone, .language]

/-- One critical field's `(totalChecks, matchCount)` contribution. -/
def fieldCmp : CriticalField → Fingerprint → Fingerprint → Nat × Nat
  | .platform, a, b => cmpStr a.platform b.platform
  | .vendor, a, b => cmpStr a.vendor b.vendor
  | .userAgent, a, b => cmpStr a.userAgent b.userAgent
  | .screenResolution, a, b => cmpStr a.screenResolution b.screenResolution
  | .hardwareConcurrency, a, b => cmpNat a.hardwareConcurrency b.hardwareConcurrency
  | .maxTouchPoints, a, b => cmpNat a.maxTouchPoints b.maxTouchPoints
  | .timezone, a, b => cmpStr a.timezone b.timezone
  | .language, a, b => cmpStr a.language b.language

/-- A critical field is present in a record when it is truthy: a non-empty
string, respectively a non-zero number. -/
def fieldPresent : CriticalField → Fingerprint → Bool
  | .platform, a => strTruthy a.platform
  | .vendor, a => strTruthy a.vendor
  | .userAgent, a => strTruthy a.userAgent
  | .screenResolution, a => strTruthy a.screenResolution
  | .hardwareConcurrency, a => natTruthy a.hardwareConcurrency
  | .maxTouchPoints, a => natTruthy a.maxTouchPoints
  | .timezone, a => strTruthy a.timezone
  | .language, a => strTruthy a.language

/-- Exact equality of one critical field's values in two records. -/
def fieldEqVal : CriticalField → Fingerprint → Fingerprint → Bool
  | .platform, a, b => a.platform == b.platform
  | .vendor, a, b => a.vendor == b.vendor
  | .userAgent, a, b => a.userAgent == b.userAgent
  | .screenResolution, a, b => a.screenResolution == b.screenResolution
  | .hardwareConcurrency, a, b => a.hardwareConcurrency == b.hardwareConcurrency
  | .maxTouchPoints, a, b => a.maxTouchPoints == b.maxTouchPoints
  | .timezone, a, b => a.timezone == b.timezone
  | .language, a, b => a.language == b.language

/-- Two records agree on all eight critical fields. -/
def criticalEq (f g : Fingerprint) : Prop :=
  f.platform = g.platform ∧ f.vendor = g.vendor ∧ f.userAgent = g.userAgent ∧
  f.screenResolution = g.screenResolution ∧
  f.hardwareConcurrency = g.hardwareConcurrency ∧
  f.maxTouchPoints = g.maxTouchPoints ∧
  f.timezone = g.timezone ∧ f.language = g.language

instance (f g : Fingerprint) : Decidable (criticalEq f g) := by
  unfold criticalEq; infer_instance

/-- Modelled from the spec: the lookup contract of §4.2 as amended — the
first account, in store iteration order, that possesses a fingerprint with
a `visitorId` field present and whose stored fingerprint `isSameDevice`
accepts against the candidate. -/
def specLookup (store : List User) (fp : Fingerprint) (t : ℚ) : Option User :=
  store.find? (fun u => hasVisitorId u && isSameDevice u.fingerprint (some fp) t)

/-- The referrer's fingerprint of the end-to-end referral scenario. -/
def referrerFp : Fingerprint :=
  { emptyFp with
    visitorId := some "v-referrer",
    platform := some "Win32", vendor := some "Google Inc.",
    userAgent := some "UA-X", screenResolution := some "1920x1080",
    hardwareConcurrency := some 8, maxTouchPoints := some 0,
    timezone := some "Africa/Accra", language := some "en-US" }

/-- The new user's fingerprint of the allowed end-to-end scenario: differs
from the referrer's in platform, vendor, userAgent, screenResolution and
hardwareConcurrency, with the rest the same. -/
def newFp : Fingerprint :=
  { referrerFp with
    visitorId := none,
    platform := some "MacIntel", vendor := some "Apple Inc.",
    userAgent := some "UA-Y", screenResolution := some "2560x1600",
    hardwareConcurrency := some 16 }

/-- A variant of `referrerFp` differing only in non-critical fields. -/
def referrerFpVariant : Fingerprint :=
  { referrerFp with
    visitorId := some "other-visitor", confidence := some 1,
    components := ["audio"], cookieEnabled := true,
    doNotTrack := some "1", timestamp := 42 }

/-- A variant of `newFp` differing only in non-critical fields. -/
def newFpVariant : Fingerprint :=
  { newFp with
    visitorId := some "yet-another", confidence := some 0,
    components := ["canvas", "fonts"], cookieEnabled := true,
    doNotTrack := some "0", timestamp := 7 }

/-- The referrer account of the end-to-end scenario: 0 points, owns
`referrerFp`, referral code `REFCODE1`. -/
def referrerU : User :=
  { id := 1, myReferralCode := some "REFCODE1", points := 0,
    fingerprint := some referrerFp }

/-- The newly registered account of the end-to-end scenario. -/
def newU : User :=
  { id := 2, myReferralCode := some "NEWCODE2", points := 0,
    fingerprint := none }

/-- The two-account store of the end-to-end scenario. -/
def storeE2E : List User := [referrerU, newU]

/-- The referrer after a successful award: points 100. -/
def referrerAwarded : User := { referrerU with points := 100 }

/-- A fingerprint whose `visitorId` field is present but holds the empty
string. -/
def fpEmptyVid : Fingerprint :=
  { emptyFp with visitorId := some "", platform := some "Win32" }

/-- An account whose fingerprint carries the empty-string `visitorId`. -/
def uEmptyVid : User :=
  { id := 7, myReferralCode := none, points := 0,
    fingerprint := some fpEmptyVid }

/-- A fingerprint whose only stored critical field is
`hardwareConcurrency = 0`. -/
def fpZeroHw : Fingerprint := { emptyFp with hardwareConcurrency := some 0 }

theorem cmpStr_fst (x y : Option String) :
    (cmpStr x y).1 = if strTruthy x && strTruthy y then 1 else 0 := by
  cases hx : strTruthy x <;> cases hy : strTruthy y <;> simp [cmpStr, hx, hy]

theorem cmpStr_snd (x y : Option String) :
    (cmpStr x y).2 = if strTruthy x && strTruthy y && (x == y) then 1 else 0 := by
  by_cases h2 : x = y
  · subst h2
    cases hx : strTruthy x <;> simp [cmpStr, hx]
  · cases hx : strTruthy x <;> cases hy : strTruthy y <;>
      simp [cmpStr, hx, hy, h2]

theorem cmpNat_fst (x y : Option Nat) :
    (cmpNat x y).1 = if natTruthy x && natTruthy y then 1 else 0 := by
  cases hx : natTruthy x <;> cases hy : natTruthy y <;> simp [cmpNat, hx, hy]

theorem cmpNat_snd (x y : Option Nat) :
    (cmpNat x y).2 = if natTruthy x && natTruthy y && (x == y) then 1 else 0 := by
  by_cases h2 : x = y
  · subst h2
    cases hx : natTruthy x <;> simp [cmpNat, hx]
  · cases hx : natTruthy x <;> cases hy : natTruthy y <;>
      simp [cmpNat, hx, hy, h2]

theorem cmpStr_diag (x : Option String) : (cmpStr x x).2 = (cmpStr x x).1 := by
  cases hx : strTruthy x <;> simp [cmpStr, hx]

theorem cmpNat_diag (x : Option Nat) : (cmpNat x x).2 = (cmpNat x x).1 := by
  cases hx : natTruthy x <;> simp [cmpNat, hx]

/-- Agreement on the critical fields makes every comparison a match. -/
theorem matchCountOf_eq_totalChecksOf (f1 f2 : Fingerprint)
    (h : criticalEq f1 f2) : matchCountOf f1 f2 = totalChecksOf f1 f2 := by
  obtain ⟨h1, h2, h3, h4, h5, h6, h7, h8⟩ := h
  simp only [matchCountOf, totalChecksOf, h1, h2, h3, h4, h5, h6, h7, h8,
    cmpStr_diag, cmpNat_diag]

/-- A record update that preserves ids commutes with `findById`. -/
theorem findById_addPoints (s : List User) (uid pts i : Nat) :
    findById (addPoints s uid pts) i =
      (findById s i).map
        (fun u => if u.id = uid then { u with points := u.points + pts } else u) := by
  unfold findById addPoints
  rw [List.find?_map]
  have hp : ((fun u : User => u.id == i) ∘ fun u =>
      if u.id = uid then { u with points := u.points + pts } else u) =
      (fun u : User => u.id == i) := by
    funext u
    by_cases h : u.id = uid <;> simp [h]
  rw [hp]

theorem pointsOf_addPoints_self (s : List User) (uid pts : Nat)
    (h : (findById s uid).isSome) :
    pointsOf (addPoints s uid pts) uid = pointsOf s uid + pts := by
  obtain ⟨u, hu⟩ := Option.isSome_iff_exists.mp h
  have hid : u.id = uid := by
    have := List.find?_some hu
    simpa using this
  simp [pointsOf, findById_addPoints, hu, hid]

theorem pointsOf_addPoints_other (s : List User) (uid pts i : Nat)
    (h : i ≠ uid) :
    pointsOf (addPoints s uid pts) i = pointsOf s i := by
  cases hu : findById s i with
  | none => simp [pointsOf, findById_addPoints, hu]
  | some u =>
    have hid : u.id = i := by
      have := List.find?_some hu
      simpa using this
    simp [pointsOf, findById_addPoints, hu, hid, h]

theorem find?_filter_comm (l : List User) (p q : User → Bool) :
    (l.filter p).find? q = l.find? (fun u => p u && q u) := by
  induction l with
  | nil => rfl
  | cons a l ih =>
    by_cases hp : p a = true <;> by_cases hq : q a = true <;>
      simp [List.filter_cons, List.find?_cons, hp, hq, ih]

/-- C2 counterexample: in the record whose only stored critical field is
`hardwareConcurrency = 0`, that field is non-null in both copies of the
record, yet the evaluator counts zero comparisons (and zero matches)
rather than the one comparison and one match the claim requires, because
the source's truthiness test skips a numeric 0. -/
theorem C2_counterexample_zero_not_counted :
    fpZeroHw.hardwareConcurrency = some 0 ∧
    totalChecksOf fpZeroHw fpZeroHw = 0 ∧
    matchCountOf fpZeroHw fpZeroHw = 0 := by
  decide

/-- C2 (amended): for every pair of records and every critical field, the
field contributes one comparison exactly when it is truthy (non-empty
string, non-zero number) in both records, and one match exactly when it is
truthy in both and the two values are equal; the evaluator's counters are
the sums of these per-field contributions.  A field that is absent, empty
or numerically 0 in either record contributes to neither counter. -/
theorem C2_per_field_counting (fld : CriticalField) (f1 f2 : Fingerprint) :
    (fieldCmp fld f1 f2).1
        = (if fieldPresent fld f1 && fieldPresent fld f2 then 1 else 0) ∧
    (fieldCmp fld f1 f2).2
        = (if fieldPresent fld f1 && fieldPresent fld f2 && fieldEqVal fld f1 f2
           then 1 else 0) ∧
    totalChecksOf f1 f2 = (CriticalField.all.map fun g => (fieldCmp g f1 f2).1).sum ∧
    matchCountOf f1 f2 = (CriticalField.all.map fun g => (fieldCmp g f1 f2).2).sum := by
  refine ⟨?_, ?_, ?_, ?_⟩
  · cases fld <;> simp [fieldCmp, fieldPresent, cmpStr_fst, cmpNat_fst]
  · cases fld <;> simp [fieldCmp, fieldPresent, fieldEqVal, cmpStr_snd, cmpNat_snd]
  · simp [CriticalField.all, fieldCmp, totalChecksOf]
    omega
  · simp [CriticalField.all, fieldCmp, matchCountOf]
    omega

/-- C3 counterexample: a pair of records with zero comparable fields is
classified as the same device at threshold 0, because the source compares
the degenerate score 0 with `>=` against the threshold. -/
theorem C3_counterexample_threshold_zero :
    totalChecksOf emptyFp emptyFp = 0 ∧
    isSameDevice (some emptyFp) (some emptyFp) 0 = true := by
  constructor
  · decide
  · norm_num [isSameDevice, similarityScore, totalChecksOf, matchCountOf,
      cmpStr, cmpNat, strTruthy, natTruthy, emptyFp]

/-- C3 (amended): for every pair of records with zero comparable fields and
every strictly positive threshold up to 1, `isSameDevice` returns false;
at threshold exactly 0 it returns true instead. -/
theorem C3_no_comparable_fields_false (f1 f2 : Fingerprint) (t : ℚ)
    (h0 : totalChecksOf f1 f2 = 0) (ht : 0 < t) (ht1 : t ≤ 1) :
    isSameDevice (some f1) (some f2) t = false := by
  simp [isSameDevice, similarityScore, h0]
  linarith

/-- C3 witness: the all-absent pair at threshold 7/10. -/
theorem C3_witness :
    totalChecksOf emptyFp emptyFp = 0 ∧ (0 : ℚ) < 7/10 ∧ (7/10 : ℚ) ≤ 1 ∧
    isSameDevice (some emptyFp) (some emptyFp) (7/10) = false :=
  ⟨by decide, by norm_num, by norm_num,
   C3_no_comparable_fields_false emptyFp emptyFp (7/10) (by decide)
     (by norm_num) (by norm_num)⟩

/-- C8 counterexample: the all-absent record is field-wise identical to
itself on all eight critical fields, yet at threshold 1 (≤ 1.0) the
evaluator returns false, because no field is comparable and the score
degenerates to 0. -/
theorem C8_counterexample_identical_but_empty :
    criticalEq emptyFp emptyFp ∧ (1 : ℚ) ≤ 1 ∧
    isSameDevice (some emptyFp) (some emptyFp) 1 = false := by
  refine ⟨by decide, le_refl 1, ?_⟩
  norm_num [isSameDevice, similarityScore, totalChecksOf, matchCountOf,
    cmpStr, cmpNat, strTruthy, natTruthy, emptyFp]

/-- C8 (amended): for every pair of records that agree on all eight
critical fields and have at least one comparable (truthy-in-both) field,
`isSameDevice` returns true for every threshold ≤ 1. -/
theorem C8_identical_records_match (f1 f2 : Fingerprint) (t : ℚ)
    (h : criticalEq f1 f2) (hpos : 0 < totalChecksOf f1 f2) (ht : t ≤ 1) :
    isSameDevice (some f1) (some f2) t = true := by
  have hm := matchCountOf_eq_totalChecksOf f1 f2 h
  have hne : (totalChecksOf f1 f2 : ℚ) ≠ 0 := by
    exact_mod_cast Nat.pos_iff_ne_zero.mp hpos
  simp [isSameDevice, similarityScore, hpos, hm, div_self hne]
  exact ht

/-- C8 witness: the referrer fingerprint against itself at threshold 7/10. -/
theorem C8_witness :
    criticalEq referrerFp referrerFp ∧ 0 < totalChecksOf referrerFp referrerFp ∧
    (7/10 : ℚ) ≤ 1 ∧
    isSameDevice (some referrerFp) (some referrerFp) (7/10) = true :=
  ⟨by decide, by decide, by norm_num,
   C8_identical_records_match referrerFp referrerFp (7/10) (by decide)
     (by decide) (by norm_num)⟩

/-- C9: the verdict of `isSameDevice` depends only on the eight critical
fields — two runs on pairs that agree on those fields but differ
arbitrarily in `visitorId`, `confidence`, `components`, `cookieEnabled`,
`doNotTrack` or `timestamp` return the same verdict, at every threshold. -/
theorem C9_verdict_determined_by_critical_fields (t : ℚ)
    (f1 f2 g1 g2 : Fingerprint)
    (h1 : criticalEq f1 g1) (h2 : criticalEq f2 g2) :
    isSameDevice (some f1) (some f2) t = isSameDevice (some g1) (some g2) t := by
  obtain ⟨a1, a2, a3, a4, a5, a6, a7, a8⟩ := h1
  obtain ⟨b1, b2, b3, b4, b5, b6, b7, b8⟩ := h2
  simp only [isSameDevice, similarityScore, totalChecksOf, matchCountOf,
    a1, a2, a3, a4, a5, a6, a7, a8, b1, b2, b3, b4, b5, b6, b7, b8]

/-- C9 witness: fingerprint pairs that differ in visitorId, confidence,
components, cookieEnabled, doNotTrack and timestamp but agree on the
critical fields yield the same verdict at threshold 7/10. -/
theorem C9_witness :
    criticalEq referrerFp referrerFpVariant ∧ criticalEq newFp newFpVariant ∧
    isSameDevice (some referrerFp) (some newFp) (7/10) =
      isSameDevice (some referrerFpVariant) (some newFpVariant) (7/10) :=
  ⟨by decide, by decide,
   C9_verdict_determined_by_critical_fields (7/10) referrerFp newFp
     referrerFpVariant newFpVariant (by decide) (by decide)⟩

/-- C5 counterexample: an account whose fingerprint's `visitorId` is the
empty string — hence not "non-empty" — is nevertheless scanned and
returned by `findMatchingFingerprint`, because the source filters on field
existence, not on truthiness. -/
theorem C5_counterexample_empty_visitorId :
    fpEmptyVid.visitorId = some "" ∧
    findMatchingFingerprint [uEmptyVid] fpEmptyVid (7/10) = some uEmptyVid := by
  refine ⟨by decide, ?_⟩
  have hsd : isSameDevice (some fpEmptyVid) (some fpEmptyVid) (7/10) = true := by
    have h1 : totalChecksOf fpEmptyVid fpEmptyVid = 1 := by decide
    have h2 : matchCountOf fpEmptyVid fpEmptyVid = 1 := by decide
    simp [isSameDevice, similarityScore, h1, h2]
    norm_num
  have hv : hasVisitorId uEmptyVid = true := by decide
  have hfs : uEmptyVid.fingerprint = some fpEmptyVid := rfl
  simp [findMatchingFingerprint, List.filter_cons, hv, List.find?_cons,
    hfs, hsd]

/-- C5 (amended): for every candidate fingerprint and threshold,
`findMatchingFingerprint` scans exactly the accounts possessing a
fingerprint with a `visitorId` field present (including an empty-string
one), returns the first account in store iteration order among them whose
stored fingerprint satisfies `isSameDevice` against the candidate, and
returns none when the store is empty or no scanned account matches. -/
theorem C5_lookup_first_match (store : List User) (fp : Fingerprint) (t : ℚ) :
    findMatchingFingerprint store fp t = specLookup store fp t ∧
    (findMatchingFingerprint store fp t = none ↔
      ∀ u ∈ store, hasVisitorId u = true →
        isSameDevice u.fingerprint (some fp) t = false) := by
  have hp : (fun u => hasVisitorId u
        && (u.fingerprint.isSome && isSameDevice u.fingerprint (some fp) t))
      = (fun u => hasVisitorId u && isSameDevice u.fingerprint (some fp) t) := by
    funext u
    cases hu : u.fingerprint with
    | none => simp [hasVisitorId, hu]
    | some fpu => simp [hasVisitorId, hu]
  have key : findMatchingFingerprint store fp t = specLookup store fp t := by
    unfold findMatchingFingerprint specLookup
    rw [find?_filter_comm, hp]
  refine ⟨key, ?_⟩
  rw [key]
  unfold specLookup
  rw [List.find?_eq_none]
  simp only [Bool.and_eq_true, not_and, Bool.not_eq_true]

/-- C1: whenever the referral code resolves to a referrer with a stored
fingerprint, the new-user id resolves, and the self-referral check
`isSameDevice(referrer.fingerprint, newUserFingerprint, 0.7)` fires,
`awardReferralPoints` fails with the self-referral fraud error, the store
is unchanged, and in particular the referrer's points counter is
unchanged. -/
theorem C1_self_referral_blocks_award (store : List User) (code : String)
    (nid : Nat) (referrer : User) (rfp nfp : Fingerprint)
    (href : findByReferralCode store code = some referrer)
    (hfp : referrer.fingerprint = some rfp)
    (hnew : (findById store nid).isSome)
    (hsame : isSameDevice (some rfp) (some nfp) (7/10) = true) :
    awardReferralPoints store code nid (some nfp) =
      (Except.error AwardError.selfReferralFraud, store) ∧
    pointsOf (awardReferralPoints store code nid (some nfp)).2 referrer.id =
      pointsOf store referrer.id := by
  obtain ⟨nu, hnu⟩ := Option.isSome_iff_exists.mp hnew
  have key : awardReferralPoints store code nid (some nfp) =
      (Except.error AwardError.selfReferralFraud, store) := by
    simp [awardReferralPoints, href, hnu, hfp, hsame]
  exact ⟨key, by rw [key]⟩

/-- C1 witness: the end-to-end store where the new user presents the
referrer's own fingerprint. -/
theorem C1_witness :
    awardReferralPoints storeE2E "REFCODE1" 2 (some referrerFp) =
      (Except.error AwardError.selfReferralFraud, storeE2E) ∧
    pointsOf (awardReferralPoints storeE2E "REFCODE1" 2 (some referrerFp)).2
        referrerU.id = pointsOf storeE2E referrerU.id :=
  C1_self_referral_blocks_award storeE2E "REFCODE1" 2 referrerU referrerFp
    referrerFp (by decide) (by decide) (by decide)
    (by
      have h1 : totalChecksOf referrerFp referrerFp = 7 := by decide
      have h2 : matchCountOf referrerFp referrerFp = 7 := by decide
      simp [isSameDevice, similarityScore, h1, h2]
      norm_num)

/-- C4 counterexample: in the allowed end-to-end scenario the similarity
score is 2/7, not the claimed 3/8 — the `maxTouchPoints` field, holding 0
in both records, is skipped by the truthiness test, leaving 7 comparisons
of which timezone and language match. -/
theorem C4_counterexample_score_not_three_eighths :
    matchCountOf referrerFp newFp = 2 ∧ totalChecksOf referrerFp newFp = 7 ∧
    similarityScore referrerFp newFp ≠ 3/8 := by
  have h1 : totalChecksOf referrerFp newFp = 7 := by decide
  have h2 : matchCountOf referrerFp newFp = 2 := by decide
  refine ⟨h2, h1, ?_⟩
  simp [similarityScore, h1, h2]
  norm_num

/-- C4 (amended): in the end-to-end scenario where the new user's
fingerprint differs from the referrer's in platform, vendor, userAgent,
screenResolution and hardwareConcurrency with the rest the same, the
similarity score is 2/7, which is below 0.7, so `awardReferralPoints`
succeeds and the referrer's points become 100. -/
theorem C4_end_to_end_allowed :
    similarityScore referrerFp newFp = 2/7 ∧ ((2 : ℚ)/7 < 7/10) ∧
    awardReferralPoints storeE2E "REFCODE1" 2 (some newFp) =
      (Except.ok { referrer := referrerAwarded, newUser := newU,
                   referrerPointsAwarded := 100, newUserPointsAwarded := 0,
                   fraudCheckPassed := true },
       [referrerAwarded, newU]) ∧
    pointsOf (awardReferralPoints storeE2E "REFCODE1" 2 (some newFp)).2 1 = 100 := by
  have h1 : totalChecksOf referrerFp newFp = 7 := by decide
  have h2 : matchCountOf referrerFp newFp = 2 := by decide
  have hscore : similarityScore referrerFp newFp = 2/7 := by
    simp [similarityScore, h1, h2]
  have hsd : isSameDevice (some referrerFp) (some newFp) (7/10) = false := by
    simp [isSameDevice, hscore]
    norm_num
  have hv : hasVisitorId referrerU = true := by decide
  have hnv : hasVisitorId newU = false := by decide
  have hrf : referrerU.fingerprint = some referrerFp := rfl
  have hmatch : findMatchingFingerprint storeE2E newFp (7/10) = none := by
    simp [findMatchingFingerprint, storeE2E, List.filter_cons, hv, hnv,
      List.find?_cons, hrf, hsd]
  have hcode : findByReferralCode storeE2E "REFCODE1" = some referrerU := by
    decide
  have hid : findById storeE2E 2 = some newU := by decide
  have haward : awardReferralPoints storeE2E "REFCODE1" 2 (some newFp) =
      (Except.ok { referrer := referrerAwarded, newUser := newU,
                   referrerPointsAwarded := 100, newUserPointsAwarded := 0,
                   fraudCheckPassed := true },
       [referrerAwarded, newU]) := by
    simp only [awardReferralPoints, hcode, hid, hrf, hsd, hmatch,
      Option.isSome_some, Bool.true_and, Bool.false_eq_true, if_false,
      awardSuccess]
    simp only [Prod.mk.injEq, Except.ok.injEq]
    constructor
    · decide
    · decide
  refine ⟨hscore, by norm_num, haward, ?_⟩
  rw [haward]
  decide

theorem awardSuccess_inv (store store2 : List User) (referrer newUser : User)
    (res : AwardResult)
    (h : awardSuccess store referrer newUser = (Except.ok res, store2)) :
    res = { referrer := { referrer with points := referrer.points + 100 },
            newUser := newUser, referrerPointsAwarded := 100,
            newUserPointsAwarded := 0, fraudCheckPassed := true } ∧
    store2 = addPoints store referrer.id 100 := by
  unfold awardSuccess at h
  simp only [Prod.mk.injEq, Except.ok.injEq] at h
  exact ⟨h.1.symm, h.2.symm⟩

theorem award_ok_inv (store store2 : List User) (code : String) (nid : Nat)
    (referrer newUser : User) (nfp : Option Fingerprint) (res : AwardResult)
    (href : findByReferralCode store code = some referrer)
    (hnew : findById store nid = some newUser)
    (hok : awardReferralPoints store code nid nfp = (Except.ok res, store2)) :
    res = { referrer := { referrer with points := referrer.points + 100 },
            newUser := newUser, referrerPointsAwarded := 100,
            newUserPointsAwarded := 0, fraudCheckPassed := true } ∧
    store2 = addPoints store referrer.id 100 := by
  cases nfp with
  | none =>
    simp only [awardReferralPoints, href, hnew] at hok
    exact awardSuccess_inv store store2 referrer newUser res hok
  | some fp =>
    simp only [awardReferralPoints, href, hnew] at hok
    split at hok
    · simp at hok
    · split at hok
      · split at hok
        · simp at hok
        · exact awardSuccess_inv store store2 referrer newUser res hok
      · exact awardSuccess_inv store store2 referrer newUser res hok

theorem award_snd_cases (store : List User) (code : String) (nid : Nat)
    (nfp : Option Fingerprint) :
    (awardReferralPoints store code nid nfp).2 = store ∨
    ∃ res, (awardReferralPoints store code nid nfp).1 = Except.ok res := by
  unfold awardReferralPoints
  split
  · exact Or.inl rfl
  · split
    · exact Or.inl rfl
    · split
      · split
        · exact Or.inl rfl
        · split
          · split
            · exact Or.inl rfl
            · exact Or.inr ⟨_, rfl⟩
          · exact Or.inr ⟨_, rfl⟩
      · exact Or.inr ⟨_, rfl⟩

/-- C6: whenever the referral code and new-user id resolve, the new user
starts at 0 points, the two accounts are distinct, and the call succeeds
(all fraud checks pass), the referrer's stored points grow by exactly 100,
the new user's stored points stay 0, and the result reports
`referrerPointsAwarded = 100` and `newUserPointsAwarded = 0`. -/
theorem C6_award_amounts (store store2 : List User) (code : String) (nid : Nat)
    (referrer newUser : User) (nfp : Option Fingerprint) (res : AwardResult)
    (href : findByReferralCode store code = some referrer)
    (hnew : findById store nid = some newUser)
    (hpts : newUser.points = 0)
    (hdiff : referrer.id ≠ nid)
    (hok : awardReferralPoints store code nid nfp = (Except.ok res, store2)) :
    res.referrerPointsAwarded = 100 ∧ res.newUserPointsAwarded = 0 ∧
    pointsOf store2 referrer.id = pointsOf store referrer.id + 100 ∧
    pointsOf store2 nid = 0 := by
  obtain ⟨hres, hstore⟩ :=
    award_ok_inv store store2 code nid referrer newUser nfp res href hnew hok
  subst hres
  subst hstore
  refine ⟨rfl, rfl, ?_, ?_⟩
  · apply pointsOf_addPoints_self
    have hmem : referrer ∈ store := List.mem_of_find?_eq_some href
    unfold findById
    rw [List.find?_isSome]
    exact ⟨referrer, hmem, by simp⟩
  · rw [pointsOf_addPoints_other store referrer.id 100 nid (Ne.symm hdiff)]
    simp [pointsOf, hnew, hpts]

/-- C6 witness: the end-to-end store with no fingerprint supplied; the
award succeeds and moves the referrer from 0 to 100 points while the new
user stays at 0. -/
theorem C6_witness :
    ({ referrer := referrerAwarded, newUser := newU,
       referrerPointsAwarded := 100, newUserPointsAwarded := 0,
       fraudCheckPassed := true } : AwardResult).referrerPointsAwarded = 100 ∧
    ({ referrer := referrerAwarded, newUser := newU,
       referrerPointsAwarded := 100, newUserPointsAwarded := 0,
       fraudCheckPassed := true } : AwardResult).newUserPointsAwarded = 0 ∧
    pointsOf [referrerAwarded, newU] referrerU.id
        = pointsOf storeE2E referrerU.id + 100 ∧
    pointsOf [referrerAwarded, newU] 2 = 0 :=
  C6_award_amounts storeE2E [referrerAwarded, newU] "REFCODE1" 2 referrerU newU
    none _ (by decide) (by decide) (by decide) (by decide) (by decide)

/-- C7: with no fingerprint supplied, no fraud check runs — whenever the
referral code and new-user id resolve, `awardReferralPoints` succeeds,
credits the referrer's account with 100 points and returns the success
result. -/
theorem C7_no_fingerprint_always_succeeds (store : List User) (code : String)
    (nid : Nat) (referrer newUser : User)
    (href : findByReferralCode store code = some referrer)
    (hnew : findById store nid = some newUser) :
    awardReferralPoints store code nid none =
      (Except.ok { referrer := { referrer with points := referrer.points + 100 },
                   newUser := newUser, referrerPointsAwarded := 100,
                   newUserPointsAwarded := 0, fraudCheckPassed := true },
       addPoints store referrer.id 100) := by
  simp [awardReferralPoints, href, hnew, awardSuccess]

/-- C7 witness: the end-to-end store with no fingerprint. -/
theorem C7_witness :
    awardReferralPoints storeE2E "REFCODE1" 2 none =
      (Except.ok { referrer := { referrerU with points := referrerU.points + 100 },
                   newUser := newU, referrerPointsAwarded := 100,
                   newUserPointsAwarded := 0, fraudCheckPassed := true },
       addPoints storeE2E referrerU.id 100) :=
  C7_no_fingerprint_always_succeeds storeE2E "REFCODE1" 2 referrerU newU
    (by decide) (by decide)

/-- C10: on every error outcome of `awardReferralPoints` — invalid referral
code, new user not found, self-referral fraud or multi-account fraud — the
store is returned unchanged: the error is raised before any points
update. -/
theorem C10_error_leaves_store_unchanged (store : List User) (code : String)
    (nid : Nat) (nfp : Option Fingerprint) (e : AwardError)
    (h : (awardReferralPoints store code nid nfp).1 = Except.error e) :
    (awardReferralPoints store code nid nfp).2 = store := by
  rcases award_snd_cases store code nid nfp with hc | ⟨res, hres⟩
  · exact hc
  · rw [hres] at h
    simp at h

/-- C10 witness: the empty store yields the invalid-referral-code error and
is returned unchanged. -/
theorem C10_witness : (awardReferralPoints [] "NOCODE" 0 none).2 = [] :=
  C10_error_leaves_store_unchanged [] "NOCODE" 0 none
    AwardError.invalidReferralCode (by decide)

end UserModel
